import Mathlib

/-!
A shallow embedding of the certgen repository's certificate class policy,
configuration validation, template construction and issuance flows
(internal/cert/config.go and the cert generation file), together with
theorems settling the stated properties of that code.

Conventions of the embedding:
* Go `int` values (key sizes, validity days, certificate classes) are
  modelled as Lean `Int`.
* Go methods that mutate their receiver through a pointer and return an
  `error` are modelled as functions returning the final receiver state
  together with an optional error: `Config → Option ConfigError × Config`.
* Each `fmt.Errorf` site of the source becomes one constructor of
  `ConfigError`, carrying the values that the source formats into the
  message.
* Filesystem and randomness effects are modelled by explicit parameters
  (a `fileMissing : String → Bool` oracle for `os.Stat` existence checks,
  explicit arguments for random draws) and, for the issuance flows, by an
  `Env` record saying which external steps succeed.
-/

namespace Certgen

/-- CertificateType from internal/cert/config.go: Root (= 0), Intermediate,
Leaf.  Only equality with Root is ever inspected by the code. -/
inductive CertificateType where
  | Root
  | Intermediate
  | Leaf
deriving DecidableEq, Repr

/-- CAConfig from internal/cert/config.go.  `Class` is a Go int
(CertificateClass), kept as `Int` because out-of-range values are
meaningful to `getClassRequirements`.  The Go field `Type` is spelled
`Type'` because `Type` is reserved in Lean. -/
structure CAConfig where
  CommonName : String
  Organization : String
  OrganizationalUnit : String
  Country : String
  Province : String
  Locality : String
  ValidityDays : Int
  KeySize : Int
  OutputDir : String
  NoProgress : Bool
  Class : Int
  Type' : CertificateType
deriving DecidableEq, Repr

/-- CertConfig from internal/cert/config.go (leaf-certificate requests). -/
structure CertConfig where
  CommonName : String
  Organization : String
  OrganizationalUnit : String
  Country : String
  Province : String
  Locality : String
  ValidityDays : Int
  KeySize : Int
  DNSNames : List String
  OutputDir : String
  NoProgress : Bool
  Class : Int
  CACert : String
  CAKey : String
deriving DecidableEq, Repr

/-- SignConfig from internal/cert/config.go. -/
structure SignConfig where
  CertPath : String
  KeyPath : String
  CACertPath : String
  CAKeyPath : String
  OutputDir : String
  NoProgress : Bool
deriving DecidableEq, Repr

/-- getClassRequirements from internal/cert/config.go: the class policy
table, returning (minKeySize, maxValidityDays).  The Go switch on the
CertificateClass int falls through to Class 1's requirements for any
value outside 1..3. -/
def getClassRequirements (class' : Int) : Int × Int :=
  if class' = 1 then (2048, 365 * 5)
  else if class' = 2 then (3072, 365 * 3)
  else if class' = 3 then (4096, 365 * 2)
  else (2048, 365 * 5)

/-- One constructor per `fmt.Errorf` site in the two validators of
internal/cert/config.go (and the SignConfig validator), carrying the
values the source formats into the message. -/
inductive ConfigError where
  | commonNameRequired
  | organizationRequired
  | countryRequired
  | keySizeBelowClassMin (minKeySize : Int) (class' : Int)
  | validityExceedsClassMax (maxValidityDays : Int) (class' : Int)
  | rootClassTooLow
  | rootKeySizeTooSmall
  | rootValidityTooShort
  | caCertPathRequired
  | caKeyPathRequired
  | caCertNotFound (path : String)
  | caKeyNotFound (path : String)
  | certPathRequired
  | keyPathRequired
  | caCertPathRequired'
  | caKeyPathRequired'
  | certNotFound (path : String)
  | keyNotFound (path : String)
  | caCertNotFound' (path : String)
  | caKeyNotFound' (path : String)
deriving DecidableEq, Repr

/-- The request field each validation error message names. -/
def ConfigError.field : ConfigError → String
  | .commonNameRequired => "commonName"
  | .organizationRequired => "organization"
  | .countryRequired => "country"
  | .keySizeBelowClassMin _ _ => "keySize"
  | .validityExceedsClassMax _ _ => "validityDays"
  | .rootClassTooLow => "class"
  | .rootKeySizeTooSmall => "keySize"
  | .rootValidityTooShort => "validityDays"
  | .caCertPathRequired => "caCert"
  | .caKeyPathRequired => "caKey"
  | .caCertNotFound _ => "caCert"
  | .caKeyNotFound _ => "caKey"
  | .certPathRequired => "certPath"
  | .keyPathRequired => "keyPath"
  | .caCertPathRequired' => "caCertPath"
  | .caKeyPathRequired' => "caKeyPath"
  | .certNotFound _ => "certPath"
  | .keyNotFound _ => "keyPath"
  | .caCertNotFound' _ => "caCertPath"
  | .caKeyNotFound' _ => "caKeyPath"

/-- Component-by-component processing of Go path/filepath.Clean: drop
empty and "." components, let ".." pop a previous component, keep leading
".." components of a relative path, and drop ".." at the root. -/
def cleanComponents (rooted : Bool) (acc : List String) : List String → List String
  | [] => acc.reverse
  | c :: rest =>
    if c = "" || c = "." then cleanComponents rooted acc rest
    else if c = ".." then
      match acc with
      | top :: acc' =>
        if top = ".." then cleanComponents rooted (".." :: top :: acc') rest
        else cleanComponents rooted acc' rest
      | [] =>
        if rooted then cleanComponents rooted [] rest
        else cleanComponents rooted [".."] rest
    else cleanComponents rooted (c :: acc) rest

/-- Split a character list at each slash, yielding the path's
components. -/
def splitSlash (acc : List Char) : List Char → List String
  | [] => [String.mk acc.reverse]
  | ch :: rest =>
    if ch = '/' then String.mk acc.reverse :: splitSlash [] rest
    else splitSlash (ch :: acc) rest

/-- Join path components with slashes. -/
def joinSlash : List String → String
  | [] => ""
  | [s] => s
  | s :: rest => s ++ "/" ++ joinSlash rest

/-- Models Go path/filepath.Clean (Unix path rules), which the validators
apply to the output directory. -/
def filepathClean (path : String) : String :=
  if path = "" then "."
  else
    let rooted := match path.data with
      | '/' :: _ => true
      | _ => false
    let comps := cleanComponents rooted [] (splitSlash [] path.data)
    let out := joinSlash comps
    if rooted then String.mk ('/' :: out.data)
    else if out = "" then "." else out

/-- Shared tail of CAConfig.Validate (config.go lines 151-157): default the
output directory to "certs", clean it, and return nil. -/
def caFinish (c : CAConfig) : Option ConfigError × CAConfig :=
  (none, { c with OutputDir := filepathClean (if c.OutputDir = "" then "certs" else c.OutputDir) })

/-- CAConfig.Validate, root-specific and validity-ceiling section
(config.go lines 130-149): a Root-typed request must be Class 2 or
higher, use at least a 4096-bit key and at least 5 years of validity; a
non-Root request must not exceed the class's validity ceiling. -/
def caCheckRootAndCeiling (c : CAConfig) : Option ConfigError × CAConfig :=
  if c.Type' = CertificateType.Root then
    if c.Class < 2 then (some .rootClassTooLow, c)
    else if c.KeySize < 4096 then (some .rootKeySizeTooSmall, c)
    else if c.ValidityDays < 365 * 5 then (some .rootValidityTooShort, c)
    else caFinish c
  else
    if c.ValidityDays > (getClassRequirements c.Class).2 then
      (some (.validityExceedsClassMax (getClassRequirements c.Class).2 c.Class), c)
    else caFinish c

/-- CAConfig.Validate, validity-defaulting section (config.go lines
125-128): a non-positive validity defaults to the class maximum. -/
def caCheckValidity (c : CAConfig) : Option ConfigError × CAConfig :=
  if c.ValidityDays ≤ 0 then
    caCheckRootAndCeiling { c with ValidityDays := (getClassRequirements c.Class).2 }
  else caCheckRootAndCeiling c

/-- CAConfig.Validate, key-size section (config.go lines 118-123): a
non-positive key size defaults to the class minimum, an explicit key size
below the class minimum is an error. -/
def caCheckKeySize (c : CAConfig) : Option ConfigError × CAConfig :=
  if c.KeySize ≤ 0 then
    caCheckValidity { c with KeySize := (getClassRequirements c.Class).1 }
  else if c.KeySize < (getClassRequirements c.Class).1 then
    (some (.keySizeBelowClassMin (getClassRequirements c.Class).1 c.Class), c)
  else caCheckValidity c

/-- CAConfig.Validate from internal/cert/config.go (lines 99-158):
required-field presence checks, class defaulting to 1, then the key-size,
validity and root-specific checks.  Returns the optional error together
with the receiver's final state (the Go method mutates its receiver). -/
def caValidate (c : CAConfig) : Option ConfigError × CAConfig :=
  if c.CommonName = "" then (some .commonNameRequired, c)
  else if c.Organization = "" then (some .organizationRequired, c)
  else if c.Country = "" then (some .countryRequired, c)
  else caCheckKeySize (if c.Class = 0 then { c with Class := 1 } else c)

/-- CertConfig.Validate, CA-path section (config.go lines 205-221):
require both paths and check the referenced files exist.  `fileMissing p`
models `os.Stat(p)` reporting that `p` does not exist. -/
def certCheckPaths (fileMissing : String → Bool) (c : CertConfig) :
    Option ConfigError × CertConfig :=
  if c.CACert = "" then (some .caCertPathRequired, c)
  else if c.CAKey = "" then (some .caKeyPathRequired, c)
  else if fileMissing c.CACert then (some (.caCertNotFound c.CACert), c)
  else if fileMissing c.CAKey then (some (.caKeyNotFound c.CAKey), c)
  else (none, c)

/-- CertConfig.Validate, output-directory section (config.go lines
199-203): the output directory is defaulted to "certs" and cleaned
before the CA-path checks. -/
def certCleanOutput (fileMissing : String → Bool) (c : CertConfig) :
    Option ConfigError × CertConfig :=
  certCheckPaths fileMissing
    { c with OutputDir := filepathClean (if c.OutputDir = "" then "certs" else c.OutputDir) }

/-- CertConfig.Validate, DNS-name section (config.go lines 194-197): an
empty dnsNames list defaults to [commonName]. -/
def certSetDNS (fileMissing : String → Bool) (c : CertConfig) :
    Option ConfigError × CertConfig :=
  if c.DNSNames = [] then certCleanOutput fileMissing { c with DNSNames := [c.CommonName] }
  else certCleanOutput fileMissing c

/-- CertConfig.Validate, validity section (config.go lines 187-192): a
non-positive validity defaults to the class maximum; an explicit validity
above the class maximum is an error. -/
def certCheckValidity (fileMissing : String → Bool) (c : CertConfig) :
    Option ConfigError × CertConfig :=
  if c.ValidityDays ≤ 0 then
    certSetDNS fileMissing { c with ValidityDays := (getClassRequirements c.Class).2 }
  else if c.ValidityDays > (getClassRequirements c.Class).2 then
    (some (.validityExceedsClassMax (getClassRequirements c.Class).2 c.Class), c)
  else certSetDNS fileMissing c

/-- CertConfig.Validate, key-size section (config.go lines 180-185). -/
def certCheckKeySize (fileMissing : String → Bool) (c : CertConfig) :
    Option ConfigError × CertConfig :=
  if c.KeySize ≤ 0 then
    certCheckValidity fileMissing { c with KeySize := (getClassRequirements c.Class).1 }
  else if c.KeySize < (getClassRequirements c.Class).1 then
    (some (.keySizeBelowClassMin (getClassRequirements c.Class).1 c.Class), c)
  else certCheckValidity fileMissing c

/-- CertConfig.Validate from internal/cert/config.go (lines 161-224). -/
def certValidate (fileMissing : String → Bool) (c : CertConfig) :
    Option ConfigError × CertConfig :=
  if c.CommonName = "" then (some .commonNameRequired, c)
  else if c.Organization = "" then (some .organizationRequired, c)
  else if c.Country = "" then (some .countryRequired, c)
  else certCheckKeySize fileMissing (if c.Class = 0 then { c with Class := 1 } else c)

/-- SignConfig.Validate from internal/cert/config.go (lines 227-269). -/
def signValidate (fileMissing : String → Bool) (c : SignConfig) :
    Option ConfigError × SignConfig :=
  if c.CertPath = "" then (some .certPathRequired, c)
  else if c.KeyPath = "" then (some .keyPathRequired, c)
  else if c.CACertPath = "" then (some .caCertPathRequired', c)
  else if c.CAKeyPath = "" then (some .caKeyPathRequired', c)
  else if fileMissing c.CertPath then (some (.certNotFound c.CertPath), c)
  else if fileMissing c.KeyPath then (some (.keyNotFound c.KeyPath), c)
  else if fileMissing c.CACertPath then (some (.caCertNotFound' c.CACertPath), c)
  else if fileMissing c.CAKeyPath then (some (.caKeyNotFound' c.CAKeyPath), c)
  else (none, { c with OutputDir := filepathClean (if c.OutputDir = "" then "certs" else c.OutputDir) })

/-! ## Templates and signing (cert generation file) -/

/-- pkix.Name as populated by the template builders: each multi-valued
field receives the one-element list holding the config string. -/
structure PkixName where
  CommonName : String
  Organization : List String
  OrganizationalUnit : List String
  Country : List String
  Province : List String
  Locality : List String
deriving DecidableEq, Repr

/-- The zero pkix.Name (issuer of a not-yet-signed template). -/
def emptyPkixName : PkixName :=
  { CommonName := "", Organization := [], OrganizationalUnit := [],
    Country := [], Province := [], Locality := [] }

/-- The x509.KeyUsage bits the repository sets. -/
inductive KeyUsage where
  | digitalSignature
  | keyEncipherment
  | certSign
  | crlSign
deriving DecidableEq, Repr

/-- The x509.ExtKeyUsage values the repository sets. -/
inductive ExtKeyUsage where
  | serverAuth
  | clientAuth
  | codeSigning
  | emailProtection
  | timeStamping
deriving DecidableEq, Repr

/-- The fields of x509.Certificate that the repository reads or writes.
Times are modelled in days (AddDate(0, 0, n) adds n days); key
identifiers are byte lists; `Issuer` is filled by signing and zero in a
template. -/
structure Certificate where
  SerialNumber : Nat
  Subject : PkixName
  Issuer : PkixName
  NotBefore : Int
  NotAfter : Int
  IsCA : Bool
  KeyUsage : List KeyUsage
  ExtKeyUsage : List ExtKeyUsage
  BasicConstraintsValid : Bool
  SubjectKeyId : List Nat
  AuthorityKeyId : List Nat
  MaxPathLen : Int
  MaxPathLenZero : Bool
  PolicyIdentifiers : List (List Nat)
  DNSNames : List String
deriving DecidableEq, Repr

/-- The subject name the template builders construct from a request's
identity fields. -/
def subjectOfCA (config : CAConfig) : PkixName :=
  { CommonName := config.CommonName
    Organization := [config.Organization]
    OrganizationalUnit := [config.OrganizationalUnit]
    Country := [config.Country]
    Province := [config.Province]
    Locality := [config.Locality] }

/-- As `subjectOfCA`, for leaf-certificate requests. -/
def subjectOfCert (config : CertConfig) : PkixName :=
  { CommonName := config.CommonName
    Organization := [config.Organization]
    OrganizationalUnit := [config.OrganizationalUnit]
    Country := [config.Country]
    Province := [config.Province]
    Locality := [config.Locality] }

/-- createCATemplate from the cert generation file.  `serialNumber`
models the random draw of generateSerialNumber; `skiDraw` and `akiDraw`
model the two independent generateSubjectKeyID() calls the source makes
for SubjectKeyId and AuthorityKeyId; `now` models time.Now() in days.
After the base literal, the class switch adjusts path length and
extended key usages, and the Root branch overwrites AuthorityKeyId with
SubjectKeyId, key usages, extended key usages and policies. -/
def createCATemplate (config : CAConfig) (serialNumber : Nat)
    (skiDraw akiDraw : List Nat) (now : Int) : Certificate :=
  let template : Certificate :=
    { SerialNumber := serialNumber
      Subject := subjectOfCA config
      Issuer := emptyPkixName
      NotBefore := now
      NotAfter := now + config.ValidityDays
      IsCA := true
      KeyUsage := [.certSign, .digitalSignature]
      ExtKeyUsage := [.serverAuth, .clientAuth]
      BasicConstraintsValid := true
      SubjectKeyId := skiDraw
      AuthorityKeyId := akiDraw
      MaxPathLen := 0
      MaxPathLenZero := false
      PolicyIdentifiers := []
      DNSNames := [] }
  let template :=
    if config.Class = 1 then
      { template with MaxPathLen := 0, MaxPathLenZero := true,
                      ExtKeyUsage := [.clientAuth, .emailProtection] }
    else if config.Class = 2 then
      { template with MaxPathLen := 1, MaxPathLenZero := false,
                      ExtKeyUsage := [.serverAuth, .clientAuth] }
    else if config.Class = 3 then
      { template with MaxPathLen := 2, MaxPathLenZero := false,
                      ExtKeyUsage := [.serverAuth, .clientAuth, .codeSigning],
                      PolicyIdentifiers := [[2, 5, 29, 32, 0]] }
    else template
  if config.Type' = CertificateType.Root then
    { template with
        AuthorityKeyId := template.SubjectKeyId,
        NotAfter := now + config.ValidityDays,
        KeyUsage := [.certSign, .crlSign, .digitalSignature],
        ExtKeyUsage := [.serverAuth, .clientAuth, .codeSigning,
                        .emailProtection, .timeStamping],
        PolicyIdentifiers := [[2, 5, 29, 32, 0], [2, 5, 29, 32, 1]] }
  else template

/-- createCertTemplate from the cert generation file: leaf templates set
neither SubjectKeyId nor AuthorityKeyId (both stay empty) and are not CA
certificates. -/
def createCertTemplate (config : CertConfig) (serialNumber : Nat) (now : Int) :
    Certificate :=
  let template : Certificate :=
    { SerialNumber := serialNumber
      Subject := subjectOfCert config
      Issuer := emptyPkixName
      NotBefore := now
      NotAfter := now + config.ValidityDays
      IsCA := false
      KeyUsage := [.digitalSignature, .keyEncipherment]
      ExtKeyUsage := []
      BasicConstraintsValid := true
      SubjectKeyId := []
      AuthorityKeyId := []
      MaxPathLen := 0
      MaxPathLenZero := false
      PolicyIdentifiers := []
      DNSNames := config.DNSNames }
  if config.Class = 1 then
    { template with ExtKeyUsage := [.clientAuth, .emailProtection] }
  else if config.Class = 2 then
    { template with ExtKeyUsage := [.serverAuth, .clientAuth] }
  else if config.Class = 3 then
    { template with ExtKeyUsage := [.serverAuth, .clientAuth],
                    PolicyIdentifiers := [[2, 5, 29, 32, 0]] }
  else template

/-- Models Go crypto/x509.CreateCertificate's construction of the signed
certificate from template and parent: the issuer name is the parent's
subject, and the template's AuthorityKeyId is replaced by the parent's
SubjectKeyId exactly when the encoded issuer and subject names differ
and the parent carries a non-empty SubjectKeyId (otherwise the
template's own AuthorityKeyId is kept).  All other template fields are
carried into the certificate unchanged. -/
def x509CreateCertificate (template parent : Certificate) : Certificate :=
  { template with
      Issuer := parent.Subject,
      AuthorityKeyId :=
        if parent.Subject ≠ template.Subject ∧ parent.SubjectKeyId ≠ [] then
          parent.SubjectKeyId
        else template.AuthorityKeyId }

/-- The certificate produced by GenerateCA (cert generation file) when
validation and every external step succeed: the validated config's
template is signed with itself as parent.  External failures (directory,
key generation, randomness, saving) only abort the flow; they never
change the produced certificate, so they are modelled separately by
`generateCARun`. -/
def generateCACert (config : CAConfig) (serialNumber : Nat)
    (skiDraw akiDraw : List Nat) (now : Int) : Option Certificate :=
  match caValidate config with
  | (some _, _) => none
  | (none, c) =>
    let template := createCATemplate c serialNumber skiDraw akiDraw now
    some (x509CreateCertificate template template)

/-- The certificate produced by GenerateCertificate (cert generation
file) when validation and every external step succeed: the validated
config's leaf template is signed with the loaded CA certificate as
parent. -/
def generateLeafCert (fileMissing : String → Bool) (config : CertConfig)
    (caCert : Certificate) (serialNumber : Nat) (now : Int) : Option Certificate :=
  match certValidate fileMissing config with
  | (some _, _) => none
  | (none, c) =>
    some (x509CreateCertificate (createCertTemplate c serialNumber now) caCert)

/-! ## Issuance flows as event traces

Each flow of the cert generation file is modelled as the sequence of
steps it performs, in source order, with an early return at the first
failing step.  External, fallible steps (filesystem and cryptographic
primitives) succeed or fail according to an `Env` record. -/

/-- One observable step of an issuance flow.  A `writeFile` step records
the path, the permission mode requested from the operating system and
the PEM block type written. -/
inductive Step where
  | validate
  | ensureDir
  | keyGen
  | buildTemplate
  | loadCert
  | loadKey
  | loadCA
  | createCert
  | reparse
  | mkdirOut
  | writeFile (path : String) (mode : Nat) (pemType : String)
deriving DecidableEq, Repr

/-- The error kind a flow returns, one per early-return site. -/
inductive FlowError where
  | invalidConfig
  | outputDir
  | keyGenFailed
  | templateFailed
  | loadCertFailed
  | loadKeyFailed
  | loadCAFailed
  | createFailed
  | parseFailed
  | saveCertFailed
  | saveKeyFailed
  | mkdirFailed
  | writeCertFailed
  | writeKeyFailed
deriving DecidableEq, Repr

/-- Which external steps succeed during a run. -/
structure Env where
  dirOk : Bool
  keyGenOk : Bool
  serialOk : Bool
  loadCertOk : Bool
  loadKeyOk : Bool
  loadCAOk : Bool
  createOk : Bool
  parseOk : Bool
  certWriteOk : Bool
  keyWriteOk : Bool
deriving DecidableEq, Repr

/-- An environment in which every external step succeeds. -/
def envAllOk : Env :=
  { dirOk := true, keyGenOk := true, serialOk := true, loadCertOk := true,
    loadKeyOk := true, loadCAOk := true, createOk := true, parseOk := true,
    certWriteOk := true, keyWriteOk := true }

/-- filepath.Join as used by the flows: a cleaned directory joined with a
bare file name. -/
def joinPath (dir name : String) : String := dir ++ "/" ++ name

/-- certFileMode from the cert generation file (0644). -/
def certFileMode : Nat := 0o644

/-- keyFileMode from the cert generation file (0600). -/
def keyFileMode : Nat := 0o600

/-- The mode os.Create requests (before umask); writePEM in the cert
generation file creates its output with os.Create. -/
def osCreateMode : Nat := 0o666

/-- GenerateCA from the cert generation file as an event trace: validate,
ensure the output directory is writable, generate the key, build the
template, then generateAndSaveCertificate (create the DER, re-parse it,
and write ca.crt with certFileMode and ca.key with keyFileMode as a
PKCS#8 "PRIVATE KEY" block; the certificate-write error is checked
first). -/
def generateCARun (config : CAConfig) (env : Env) : List Step × Option FlowError :=
  match caValidate config with
  | (some _, _) => ([.validate], some .invalidConfig)
  | (none, c) =>
    if ¬ env.dirOk then ([.validate, .ensureDir], some .outputDir)
    else if ¬ env.keyGenOk then
      ([.validate, .ensureDir, .keyGen], some .keyGenFailed)
    else if ¬ env.serialOk then
      ([.validate, .ensureDir, .keyGen, .buildTemplate], some .templateFailed)
    else if ¬ env.createOk then
      ([.validate, .ensureDir, .keyGen, .buildTemplate, .createCert], some .createFailed)
    else if ¬ env.parseOk then
      ([.validate, .ensureDir, .keyGen, .buildTemplate, .createCert, .reparse],
       some .parseFailed)
    else
      ([.validate, .ensureDir, .keyGen, .buildTemplate, .createCert, .reparse,
        .writeFile (joinPath c.OutputDir "ca.crt") certFileMode "CERTIFICATE",
        .writeFile (joinPath c.OutputDir "ca.key") keyFileMode "PRIVATE KEY"],
       if ¬ env.certWriteOk then some .saveCertFailed
       else if ¬ env.keyWriteOk then some .saveKeyFailed
       else none)

/-- GenerateCertificate from the cert generation file as an event trace:
validate, build the template, generate the key, load the CA, create the
DER, create the output directory with MkdirAll, then write cert.crt and
cert.key via writePEM (os.Create, mode 0666 for both) — in that source
order.  The DER is never re-parsed, and the only directory handling is
the MkdirAll after key generation. -/
def generateCertificateRun (fileMissing : String → Bool) (config : CertConfig)
    (env : Env) : List Step × Option FlowError :=
  match certValidate fileMissing config with
  | (some _, _) => ([.validate], some .invalidConfig)
  | (none, c) =>
    if ¬ env.serialOk then ([.validate, .buildTemplate], some .templateFailed)
    else if ¬ env.keyGenOk then
      ([.validate, .buildTemplate, .keyGen], some .keyGenFailed)
    else if ¬ env.loadCAOk then
      ([.validate, .buildTemplate, .keyGen, .loadCA], some .loadCAFailed)
    else if ¬ env.createOk then
      ([.validate, .buildTemplate, .keyGen, .loadCA, .createCert], some .createFailed)
    else if ¬ env.dirOk then
      ([.validate, .buildTemplate, .keyGen, .loadCA, .createCert, .mkdirOut],
       some .mkdirFailed)
    else if ¬ env.certWriteOk then
      ([.validate, .buildTemplate, .keyGen, .loadCA, .createCert, .mkdirOut,
        .writeFile (joinPath c.OutputDir "cert.crt") osCreateMode "CERTIFICATE"],
       some .writeCertFailed)
    else
      ([.validate, .buildTemplate, .keyGen, .loadCA, .createCert, .mkdirOut,
        .writeFile (joinPath c.OutputDir "cert.crt") osCreateMode "CERTIFICATE",
        .writeFile (joinPath c.OutputDir "cert.key") osCreateMode "PRIVATE KEY"],
       if ¬ env.keyWriteOk then some .writeKeyFailed else none)

/-- SignCertificate from the cert generation file as an event trace:
validate, load and parse the certificate, its key and the CA, create the
output directory with MkdirAll, re-sign with x509.CreateCertificate, and
write signed.crt via writePEM (os.Create, mode 0666). -/
def signCertificateRun (fileMissing : String → Bool) (config : SignConfig)
    (env : Env) : List Step × Option FlowError :=
  match signValidate fileMissing config with
  | (some _, _) => ([.validate], some .invalidConfig)
  | (none, c) =>
    if ¬ env.loadCertOk then ([.validate, .loadCert], some .loadCertFailed)
    else if ¬ env.loadKeyOk then
      ([.validate, .loadCert, .loadKey], some .loadKeyFailed)
    else if ¬ env.loadCAOk then
      ([.validate, .loadCert, .loadKey, .loadCA], some .loadCAFailed)
    else if ¬ env.dirOk then
      ([.validate, .loadCert, .loadKey, .loadCA, .mkdirOut], some .mkdirFailed)
    else if ¬ env.createOk then
      ([.validate, .loadCert, .loadKey, .loadCA, .mkdirOut, .createCert],
       some .createFailed)
    else
      ([.validate, .loadCert, .loadKey, .loadCA, .mkdirOut, .createCert,
        .writeFile (joinPath c.OutputDir "signed.crt") osCreateMode "CERTIFICATE"],
       if ¬ env.certWriteOk then some .writeCertFailed else none)

/-! ## Derived notions and concrete sample inputs -/

/-- The class a request is resolved to: 0 defaults to Class 1
(config.go lines 111-113). -/
def effectiveClass (c : CAConfig) : Int :=
  if c.Class = 0 then 1 else c.Class

/-- The key size a CA request is resolved to: a non-positive key size
defaults to the resolved class's minimum (config.go lines 119-120). -/
def effectiveKeySize (c : CAConfig) : Int :=
  if c.KeySize ≤ 0 then (getClassRequirements (effectiveClass c)).1 else c.KeySize

/-- The validity a CA request is resolved to: a non-positive validity
defaults to the resolved class's maximum (config.go lines 126-128). -/
def effectiveValidity (c : CAConfig) : Int :=
  if c.ValidityDays ≤ 0 then (getClassRequirements (effectiveClass c)).2 else c.ValidityDays

/-- The class a leaf request is resolved to: 0 defaults to Class 1
(config.go lines 173-175). -/
def effectiveClassCert (c : CertConfig) : Int :=
  if c.Class = 0 then 1 else c.Class

/-- Whether a validation outcome is an error naming the class, key-size
or validity field. -/
def namesRootField : Option ConfigError → Bool
  | none => false
  | some e => e.field == "class" || e.field == "keySize" || e.field == "validityDays"

/-- A filesystem oracle on which no referenced file is missing. -/
def noFileMissing : String → Bool := fun _ => false

/-- An environment whose directory step fails. -/
def envDirFail : Env := { envAllOk with dirOk := false }

/-- An environment whose certificate re-parse step fails. -/
def envParseFail : Env := { envAllOk with parseOk := false }

/-- A root CA request that validates (spec scenario 1 shape). -/
def caRootSample : CAConfig :=
  { CommonName := "Root CA", Organization := "Example", OrganizationalUnit := "",
    Country := "US", Province := "", Locality := "", ValidityDays := 3650,
    KeySize := 4096, OutputDir := "certs", NoProgress := true, Class := 2,
    Type' := CertificateType.Root }

/-- The Class 1 root CA request of spec scenario 2. -/
def caRootClass1Sample : CAConfig :=
  { caRootSample with Class := 1 }

/-- An intermediate CA request that validates. -/
def caIntermediateSample : CAConfig :=
  { CommonName := "Intermediate CA", Organization := "Example",
    OrganizationalUnit := "", Country := "US", Province := "", Locality := "",
    ValidityDays := 1000, KeySize := 4096, OutputDir := "certs",
    NoProgress := true, Class := 2, Type' := CertificateType.Intermediate }

/-- A CA request with an explicitly supplied key size below its class
minimum. -/
def caLowKeySample : CAConfig :=
  { caIntermediateSample with KeySize := 2048 }

/-- A leaf request that validates (empty dnsNames). -/
def certLeafSample : CertConfig :=
  { CommonName := "example.com", Organization := "Example",
    OrganizationalUnit := "", Country := "US", Province := "", Locality := "",
    ValidityDays := 365, KeySize := 3072, DNSNames := [], OutputDir := "certs",
    NoProgress := true, Class := 2, CACert := "ca/ca.crt", CAKey := "ca/ca.key" }

/-- A leaf request with an explicitly supplied validity above its class
maximum. -/
def certHighValiditySample : CertConfig :=
  { certLeafSample with ValidityDays := 2000 }

/-- A sign request with all four paths supplied. -/
def signSample : SignConfig :=
  { CertPath := "certs/cert.crt", KeyPath := "certs/cert.key",
    CACertPath := "ca/ca.crt", CAKeyPath := "ca/ca.key",
    OutputDir := "certs", NoProgress := true }

/-- A parent CA certificate with a subject key identifier, used as the
issuer of sample leaf issuances. -/
def parentCertSample : Certificate :=
  { SerialNumber := 7
    Subject := { CommonName := "Root CA", Organization := ["Example"],
                 OrganizationalUnit := [""], Country := ["US"],
                 Province := [""], Locality := [""] }
    Issuer := { CommonName := "Root CA", Organization := ["Example"],
                OrganizationalUnit := [""], Country := ["US"],
                Province := [""], Locality := [""] }
    NotBefore := 0
    NotAfter := 3650
    IsCA := true
    KeyUsage := [.certSign, .crlSign, .digitalSignature]
    ExtKeyUsage := [.serverAuth, .clientAuth]
    BasicConstraintsValid := true
    SubjectKeyId := [5, 6, 7]
    AuthorityKeyId := [5, 6, 7]
    MaxPathLen := 1
    MaxPathLenZero := false
    PolicyIdentifiers := []
    DNSNames := [] }

/-- The certificate `generateLeafCert` issues for `certLeafSample` under
`parentCertSample` with serial 1 at time 0. -/
def leafIssuedSample : Certificate :=
  x509CreateCertificate
    (createCertTemplate ((certValidate noFileMissing certLeafSample).2) 1 0)
    parentCertSample

/-- The certificate `generateCACert` issues for `caRootSample` with
serial 1, key-id draws [0] and [1], at time 0. -/
def rootIssuedSample : Certificate :=
  let t := createCATemplate ((caValidate caRootSample).2) 1 [0] [1] 0
  x509CreateCertificate t t

/-- The certificate `generateCACert` issues for `caIntermediateSample`
with serial 1, key-id draws [0] and [1], at time 0. -/
def intermediateIssuedSample : Certificate :=
  let t := createCATemplate ((caValidate caIntermediateSample).2) 1 [0] [1] 0
  x509CreateCertificate t t

/-! ## Shared lemmas -/

/-- The fields of a CAConfig that Validate never writes are identical
between `a` and `b`. -/
def CAKeeps (a b : CAConfig) : Prop :=
  b.CommonName = a.CommonName ∧ b.Organization = a.Organization ∧
  b.OrganizationalUnit = a.OrganizationalUnit ∧ b.Country = a.Country ∧
  b.Province = a.Province ∧ b.Locality = a.Locality ∧
  b.NoProgress = a.NoProgress ∧ b.Type' = a.Type'

theorem caKeepsRefl (a : CAConfig) : CAKeeps a a := by
  simp [CAKeeps]

theorem caKeepsTrans {a b c : CAConfig} (h1 : CAKeeps a b) (h2 : CAKeeps b c) :
    CAKeeps a c := by
  obtain ⟨e1, e2, e3, e4, e5, e6, e7, e8⟩ := h1
  obtain ⟨f1, f2, f3, f4, f5, f6, f7, f8⟩ := h2
  exact ⟨f1.trans e1, f2.trans e2, f3.trans e3, f4.trans e4, f5.trans e5,
    f6.trans e6, f7.trans e7, f8.trans e8⟩

theorem caFinish_keeps (c : CAConfig) : CAKeeps c (caFinish c).2 := by
  simp [caFinish, CAKeeps]

theorem caCheckRootAndCeiling_keeps (c : CAConfig) :
    CAKeeps c (caCheckRootAndCeiling c).2 := by
  unfold caCheckRootAndCeiling
  split_ifs with h1 h2 h3 h4 h5
  · exact caKeepsRefl c
  · exact caKeepsRefl c
  · exact caKeepsRefl c
  · exact caFinish_keeps c
  · exact caKeepsRefl c
  · exact caFinish_keeps c

theorem caCheckValidity_keeps (c : CAConfig) : CAKeeps c (caCheckValidity c).2 := by
  unfold caCheckValidity
  split_ifs with h
  · exact caKeepsTrans (by simp [CAKeeps]) (caCheckRootAndCeiling_keeps _)
  · exact caCheckRootAndCeiling_keeps c

theorem caCheckKeySize_keeps (c : CAConfig) : CAKeeps c (caCheckKeySize c).2 := by
  unfold caCheckKeySize
  split_ifs with h h2
  · exact caKeepsTrans (by simp [CAKeeps]) (caCheckValidity_keeps _)
  · exact caKeepsRefl c
  · exact caCheckValidity_keeps c

theorem caValidate_keeps (c : CAConfig) : CAKeeps c (caValidate c).2 := by
  unfold caValidate
  split_ifs with h1 h2 h3 h4
  · exact caKeepsRefl c
  · exact caKeepsRefl c
  · exact caKeepsRefl c
  · exact caKeepsTrans (by simp [CAKeeps]) (caCheckKeySize_keeps _)
  · exact caCheckKeySize_keeps c

/-- The fields of a CertConfig that Validate never writes are identical
between `a` and `b`. -/
def CertKeeps (a b : CertConfig) : Prop :=
  b.CommonName = a.CommonName ∧ b.Organization = a.Organization ∧
  b.OrganizationalUnit = a.OrganizationalUnit ∧ b.Country = a.Country ∧
  b.Province = a.Province ∧ b.Locality = a.Locality ∧
  b.NoProgress = a.NoProgress ∧ b.CACert = a.CACert ∧ b.CAKey = a.CAKey

theorem certKeepsRefl (a : CertConfig) : CertKeeps a a := by
  simp [CertKeeps]

theorem certKeepsTrans {a b c : CertConfig} (h1 : CertKeeps a b)
    (h2 : CertKeeps b c) : CertKeeps a c := by
  obtain ⟨e1, e2, e3, e4, e5, e6, e7, e8, e9⟩ := h1
  obtain ⟨f1, f2, f3, f4, f5, f6, f7, f8, f9⟩ := h2
  exact ⟨f1.trans e1, f2.trans e2, f3.trans e3, f4.trans e4, f5.trans e5,
    f6.trans e6, f7.trans e7, f8.trans e8, f9.trans e9⟩

theorem certCheckPaths_snd (fm : String → Bool) (c : CertConfig) :
    (certCheckPaths fm c).2 = c := by
  unfold certCheckPaths
  split_ifs <;> rfl

theorem certCleanOutput_keeps (fm : String → Bool) (c : CertConfig) :
    CertKeeps c (certCleanOutput fm c).2 := by
  unfold certCleanOutput
  rw [certCheckPaths_snd]
  simp [CertKeeps]

theorem certSetDNS_keeps (fm : String → Bool) (c : CertConfig) :
    CertKeeps c (certSetDNS fm c).2 := by
  unfold certSetDNS
  split_ifs with h
  · exact certKeepsTrans (by simp [CertKeeps]) (certCleanOutput_keeps fm _)
  · exact certCleanOutput_keeps fm c

theorem certCheckValidity_keeps (fm : String → Bool) (c : CertConfig) :
    CertKeeps c (certCheckValidity fm c).2 := by
  unfold certCheckValidity
  split_ifs with h1 h2
  · exact certKeepsTrans (by simp [CertKeeps]) (certSetDNS_keeps fm _)
  · exact certKeepsRefl c
  · exact certSetDNS_keeps fm c

theorem certCheckKeySize_keeps (fm : String → Bool) (c : CertConfig) :
    CertKeeps c (certCheckKeySize fm c).2 := by
  unfold certCheckKeySize
  split_ifs with h1 h2
  · exact certKeepsTrans (by simp [CertKeeps]) (certCheckValidity_keeps fm _)
  · exact certKeepsRefl c
  · exact certCheckValidity_keeps fm c

theorem certValidate_keeps (fm : String → Bool) (c : CertConfig) :
    CertKeeps c (certValidate fm c).2 := by
  unfold certValidate
  split_ifs with h1 h2 h3 h4
  · exact certKeepsRefl c
  · exact certKeepsRefl c
  · exact certKeepsRefl c
  · exact certKeepsTrans (by simp [CertKeeps]) (certCheckKeySize_keeps fm _)
  · exact certCheckKeySize_keeps fm c

/-- The root-and-ceiling stage never changes Class, KeySize or
ValidityDays. -/
theorem caRC_snd (e : CAConfig) :
    (caCheckRootAndCeiling e).2.Class = e.Class ∧
    (caCheckRootAndCeiling e).2.KeySize = e.KeySize ∧
    (caCheckRootAndCeiling e).2.ValidityDays = e.ValidityDays := by
  unfold caCheckRootAndCeiling caFinish
  split_ifs <;> simp

/-- For a Root request, the root stage succeeds exactly on the root
invariants, and every failure names the class, key-size or validity
field. -/
theorem caRootSpec (e : CAConfig) (hr : e.Type' = CertificateType.Root) :
    ((caCheckRootAndCeiling e).1 = none →
      2 ≤ (caCheckRootAndCeiling e).2.Class ∧
      4096 ≤ (caCheckRootAndCeiling e).2.KeySize ∧
      1825 ≤ (caCheckRootAndCeiling e).2.ValidityDays) ∧
    ((e.Class < 2 ∨ e.KeySize < 4096 ∨ e.ValidityDays < 1825) →
      namesRootField (caCheckRootAndCeiling e).1 = true) := by
  unfold caCheckRootAndCeiling
  rw [if_pos hr]
  split_ifs with g1 g2 g3
  · exact ⟨fun h => absurd h (by simp), fun _ => rfl⟩
  · exact ⟨fun h => absurd h (by simp), fun _ => rfl⟩
  · exact ⟨fun h => absurd h (by simp), fun _ => rfl⟩
  · refine ⟨fun _ => ?_, fun hviol => ?_⟩
    · simp only [caFinish]
      refine ⟨by simpa using g1, by omega, by omega⟩
    · rcases hviol with h | h | h
      · omega
      · omega
      · omega

/-- The validity-defaulting stage of CAConfig.Validate, specified for
Root requests in terms of the incoming fields. -/
theorem caValiditySpec (d : CAConfig) (hr : d.Type' = CertificateType.Root) :
    ((caCheckValidity d).1 = none →
      2 ≤ (caCheckValidity d).2.Class ∧
      4096 ≤ (caCheckValidity d).2.KeySize ∧
      1825 ≤ (caCheckValidity d).2.ValidityDays) ∧
    ((d.Class < 2 ∨ d.KeySize < 4096 ∨
        (if d.ValidityDays ≤ 0 then (getClassRequirements d.Class).2
         else d.ValidityDays) < 1825) →
      namesRootField (caCheckValidity d).1 = true) := by
  unfold caCheckValidity
  split_ifs with hv
  · exact caRootSpec _ hr
  · exact caRootSpec d hr

/-- The key-size stage of CAConfig.Validate, specified for Root requests
in terms of the incoming fields. -/
theorem caKeySpec (d : CAConfig) (hr : d.Type' = CertificateType.Root) :
    ((caCheckKeySize d).1 = none →
      2 ≤ (caCheckKeySize d).2.Class ∧
      4096 ≤ (caCheckKeySize d).2.KeySize ∧
      1825 ≤ (caCheckKeySize d).2.ValidityDays) ∧
    ((d.Class < 2 ∨
        (if d.KeySize ≤ 0 then (getClassRequirements d.Class).1
         else d.KeySize) < 4096 ∨
        (if d.ValidityDays ≤ 0 then (getClassRequirements d.Class).2
         else d.ValidityDays) < 1825) →
      namesRootField (caCheckKeySize d).1 = true) := by
  by_cases h1 : d.KeySize ≤ 0
  · unfold caCheckKeySize
    rw [if_pos h1, if_pos h1]
    exact caValiditySpec _ hr
  · by_cases h2 : d.KeySize < (getClassRequirements d.Class).1
    · unfold caCheckKeySize
      rw [if_neg h1, if_pos h2, if_neg h1]
      refine ⟨fun h => absurd h (by simp), fun _ => ?_⟩
      simp only [namesRootField, ConfigError.field]
      decide
    · unfold caCheckKeySize
      rw [if_neg h1, if_neg h2, if_neg h1]
      exact caValiditySpec d hr

/-- The validity stage resolves ValidityDays by defaulting and touches
neither Class nor KeySize. -/
theorem caCheckValidity_snd (d : CAConfig) :
    (caCheckValidity d).2.Class = d.Class ∧
    (caCheckValidity d).2.KeySize = d.KeySize ∧
    (caCheckValidity d).2.ValidityDays =
      (if d.ValidityDays ≤ 0 then (getClassRequirements d.Class).2
       else d.ValidityDays) := by
  unfold caCheckValidity
  split_ifs with hv
  · exact caRC_snd _
  · exact caRC_snd d

/-- On success, the key-size stage resolves KeySize and ValidityDays by
defaulting and keeps Class. -/
theorem caCheckKeySize_snd (d : CAConfig) (hs : (caCheckKeySize d).1 = none) :
    (caCheckKeySize d).2.Class = d.Class ∧
    (caCheckKeySize d).2.KeySize =
      (if d.KeySize ≤ 0 then (getClassRequirements d.Class).1 else d.KeySize) ∧
    (caCheckKeySize d).2.ValidityDays =
      (if d.ValidityDays ≤ 0 then (getClassRequirements d.Class).2
       else d.ValidityDays) := by
  by_cases h1 : d.KeySize ≤ 0
  · unfold caCheckKeySize
    rw [if_pos h1, if_pos h1]
    exact caCheckValidity_snd _
  · by_cases h2 : d.KeySize < (getClassRequirements d.Class).1
    · exfalso
      unfold caCheckKeySize at hs
      rw [if_neg h1, if_pos h2] at hs
      simp at hs
    · unfold caCheckKeySize
      rw [if_neg h1, if_neg h2, if_neg h1]
      exact caCheckValidity_snd d

/-- An explicitly supplied key size below the class minimum fails the
key-size stage with the corresponding bounds error. -/
theorem caCheckKeySize_low (d : CAConfig) (h0 : 0 < d.KeySize)
    (hlow : d.KeySize < (getClassRequirements d.Class).1) :
    caCheckKeySize d =
      (some (ConfigError.keySizeBelowClassMin (getClassRequirements d.Class).1 d.Class), d) := by
  unfold caCheckKeySize
  rw [if_neg (by omega), if_pos hlow]

/-- For a non-Root request, an explicitly supplied validity above the
class maximum fails the validity stage with the corresponding bounds
error. -/
theorem caCheckValidity_nonroot_high (d : CAConfig)
    (hr : ¬ d.Type' = CertificateType.Root) (h0 : 0 < d.ValidityDays)
    (hh : (getClassRequirements d.Class).2 < d.ValidityDays) :
    caCheckValidity d =
      (some (ConfigError.validityExceedsClassMax (getClassRequirements d.Class).2 d.Class), d) := by
  unfold caCheckValidity
  rw [if_neg (by omega)]
  unfold caCheckRootAndCeiling
  rw [if_neg hr, if_pos hh]

/-- The behavior of CAConfig.Validate past the presence and
class-defaulting steps: explicit out-of-range key sizes and (non-Root)
validities yield the bounds errors rather than clamped values, and only
absent values are defaulted. -/
theorem caC8core (d : CAConfig) :
    (0 < d.KeySize → d.KeySize < (getClassRequirements d.Class).1 →
      (caCheckKeySize d).1 =
        some (ConfigError.keySizeBelowClassMin (getClassRequirements d.Class).1 d.Class)) ∧
    (¬ d.Type' = CertificateType.Root → 0 < d.ValidityDays →
      (getClassRequirements d.Class).2 < d.ValidityDays →
      ((caCheckKeySize d).1 =
        some (ConfigError.keySizeBelowClassMin (getClassRequirements d.Class).1 d.Class) ∨
       (caCheckKeySize d).1 =
        some (ConfigError.validityExceedsClassMax (getClassRequirements d.Class).2 d.Class))) ∧
    ((caCheckKeySize d).1 = none →
      (0 < d.KeySize → (caCheckKeySize d).2.KeySize = d.KeySize) ∧
      (d.KeySize ≤ 0 → (caCheckKeySize d).2.KeySize = (getClassRequirements d.Class).1) ∧
      (0 < d.ValidityDays → (caCheckKeySize d).2.ValidityDays = d.ValidityDays) ∧
      (d.ValidityDays ≤ 0 →
        (caCheckKeySize d).2.ValidityDays = (getClassRequirements d.Class).2)) := by
  refine ⟨fun h0 hlow => ?_, fun hr hv0 hvh => ?_, fun hs => ?_⟩
  · rw [caCheckKeySize_low d h0 hlow]
  · by_cases hk : d.KeySize ≤ 0
    · refine Or.inr ?_
      have hEq : caCheckKeySize d =
          caCheckValidity { d with KeySize := (getClassRequirements d.Class).1 } := by
        unfold caCheckKeySize
        rw [if_pos hk]
      rw [hEq,
        caCheckValidity_nonroot_high
          { d with KeySize := (getClassRequirements d.Class).1 } hr hv0 hvh]
    · by_cases hklow : d.KeySize < (getClassRequirements d.Class).1
      · exact Or.inl (by rw [caCheckKeySize_low d (by omega) hklow])
      · refine Or.inr ?_
        have hEq : caCheckKeySize d = caCheckValidity d := by
          unfold caCheckKeySize
          rw [if_neg hk, if_neg hklow]
        rw [hEq, caCheckValidity_nonroot_high d hr hv0 hvh]
  · obtain ⟨-, hK, hV⟩ := caCheckKeySize_snd d hs
    refine ⟨fun h0 => ?_, fun h0 => ?_, fun h0 => ?_, fun h0 => ?_⟩
    · rw [hK, if_neg (by omega)]
    · rw [hK, if_pos h0]
    · rw [hV, if_neg (by omega)]
    · rw [hV, if_pos h0]

/-- The DNS and output-directory stages resolve DNSNames by defaulting
and touch neither Class, KeySize nor ValidityDays. -/
theorem certSetDNS_snd (fm : String → Bool) (d : CertConfig) :
    (certSetDNS fm d).2.Class = d.Class ∧
    (certSetDNS fm d).2.KeySize = d.KeySize ∧
    (certSetDNS fm d).2.ValidityDays = d.ValidityDays ∧
    (certSetDNS fm d).2.DNSNames =
      (if d.DNSNames = [] then [d.CommonName] else d.DNSNames) := by
  unfold certSetDNS certCleanOutput
  split_ifs with h <;> rw [certCheckPaths_snd] <;> simp

/-- On success, the validity stage of CertConfig.Validate resolves
ValidityDays and DNSNames by defaulting and keeps Class and KeySize. -/
theorem certCheckValidity_snd (fm : String → Bool) (d : CertConfig)
    (hs : (certCheckValidity fm d).1 = none) :
    (certCheckValidity fm d).2.Class = d.Class ∧
    (certCheckValidity fm d).2.KeySize = d.KeySize ∧
    (certCheckValidity fm d).2.ValidityDays =
      (if d.ValidityDays ≤ 0 then (getClassRequirements d.Class).2
       else d.ValidityDays) ∧
    (certCheckValidity fm d).2.DNSNames =
      (if d.DNSNames = [] then [d.CommonName] else d.DNSNames) := by
  by_cases hv : d.ValidityDays ≤ 0
  · unfold certCheckValidity
    rw [if_pos hv, if_pos hv]
    exact certSetDNS_snd fm _
  · by_cases hvh : d.ValidityDays > (getClassRequirements d.Class).2
    · exfalso
      unfold certCheckValidity at hs
      rw [if_neg hv, if_pos hvh] at hs
      simp at hs
    · unfold certCheckValidity
      rw [if_neg hv, if_neg hvh, if_neg hv]
      exact certSetDNS_snd fm d

/-- On success, the key-size stage of CertConfig.Validate resolves
KeySize, ValidityDays and DNSNames by defaulting and keeps Class. -/
theorem certCheckKeySize_snd (fm : String → Bool) (d : CertConfig)
    (hs : (certCheckKeySize fm d).1 = none) :
    (certCheckKeySize fm d).2.Class = d.Class ∧
    (certCheckKeySize fm d).2.KeySize =
      (if d.KeySize ≤ 0 then (getClassRequirements d.Class).1 else d.KeySize) ∧
    (certCheckKeySize fm d).2.ValidityDays =
      (if d.ValidityDays ≤ 0 then (getClassRequirements d.Class).2
       else d.ValidityDays) ∧
    (certCheckKeySize fm d).2.DNSNames =
      (if d.DNSNames = [] then [d.CommonName] else d.DNSNames) := by
  by_cases h1 : d.KeySize ≤ 0
  · unfold certCheckKeySize at hs ⊢
    rw [if_pos h1] at hs
    rw [if_pos h1, if_pos h1]
    exact certCheckValidity_snd fm _ hs
  · by_cases h2 : d.KeySize < (getClassRequirements d.Class).1
    · exfalso
      unfold certCheckKeySize at hs
      rw [if_neg h1, if_pos h2] at hs
      simp at hs
    · unfold certCheckKeySize at hs ⊢
      rw [if_neg h1, if_neg h2] at hs
      rw [if_neg h1, if_neg h2, if_neg h1]
      exact certCheckValidity_snd fm d hs

/-- An explicitly supplied key size below the class minimum fails
CertConfig.Validate's key-size stage with the corresponding bounds
error. -/
theorem certCheckKeySize_low (fm : String → Bool) (d : CertConfig)
    (h0 : 0 < d.KeySize) (hlow : d.KeySize < (getClassRequirements d.Class).1) :
    certCheckKeySize fm d =
      (some (ConfigError.keySizeBelowClassMin (getClassRequirements d.Class).1 d.Class), d) := by
  unfold certCheckKeySize
  rw [if_neg (by omega), if_pos hlow]

/-- An explicitly supplied validity above the class maximum fails
CertConfig.Validate's validity stage with the corresponding bounds
error. -/
theorem certCheckValidity_high (fm : String → Bool) (d : CertConfig)
    (h0 : 0 < d.ValidityDays)
    (hh : (getClassRequirements d.Class).2 < d.ValidityDays) :
    certCheckValidity fm d =
      (some (ConfigError.validityExceedsClassMax (getClassRequirements d.Class).2 d.Class), d) := by
  unfold certCheckValidity
  rw [if_neg (by omega), if_pos hh]

/-- The behavior of CertConfig.Validate past the presence and
class-defaulting steps: explicit out-of-range key sizes and validities
yield the bounds errors rather than clamped values, and only absent
values are defaulted. -/
theorem certC8core (fm : String → Bool) (d : CertConfig) :
    (0 < d.KeySize → d.KeySize < (getClassRequirements d.Class).1 →
      (certCheckKeySize fm d).1 =
        some (ConfigError.keySizeBelowClassMin (getClassRequirements d.Class).1 d.Class)) ∧
    (0 < d.ValidityDays → (getClassRequirements d.Class).2 < d.ValidityDays →
      ((certCheckKeySize fm d).1 =
        some (ConfigError.keySizeBelowClassMin (getClassRequirements d.Class).1 d.Class) ∨
       (certCheckKeySize fm d).1 =
        some (ConfigError.validityExceedsClassMax (getClassRequirements d.Class).2 d.Class))) ∧
    ((certCheckKeySize fm d).1 = none →
      (0 < d.KeySize → (certCheckKeySize fm d).2.KeySize = d.KeySize) ∧
      (d.KeySize ≤ 0 → (certCheckKeySize fm d).2.KeySize = (getClassRequirements d.Class).1) ∧
      (0 < d.ValidityDays → (certCheckKeySize fm d).2.ValidityDays = d.ValidityDays) ∧
      (d.ValidityDays ≤ 0 →
        (certCheckKeySize fm d).2.ValidityDays = (getClassRequirements d.Class).2)) := by
  refine ⟨fun h0 hlow => ?_, fun hv0 hvh => ?_, fun hs => ?_⟩
  · rw [certCheckKeySize_low fm d h0 hlow]
  · by_cases hk : d.KeySize ≤ 0
    · refine Or.inr ?_
      have hEq : certCheckKeySize fm d =
          certCheckValidity fm { d with KeySize := (getClassRequirements d.Class).1 } := by
        unfold certCheckKeySize
        rw [if_pos hk]
      rw [hEq,
        certCheckValidity_high fm
          { d with KeySize := (getClassRequirements d.Class).1 } hv0 hvh]
    · by_cases hklow : d.KeySize < (getClassRequirements d.Class).1
      · exact Or.inl (by rw [certCheckKeySize_low fm d (by omega) hklow])
      · refine Or.inr ?_
        have hEq : certCheckKeySize fm d = certCheckValidity fm d := by
          unfold certCheckKeySize
          rw [if_neg hk, if_neg hklow]
        rw [hEq, certCheckValidity_high fm d hv0 hvh]
  · obtain ⟨-, hK, hV, -⟩ := certCheckKeySize_snd fm d hs
    refine ⟨fun h0 => ?_, fun h0 => ?_, fun h0 => ?_, fun h0 => ?_⟩
    · rw [hK, if_neg (by omega)]
    · rw [hK, if_pos h0]
    · rw [hV, if_neg (by omega)]
    · rw [hV, if_pos h0]

/-! ## Claims -/

/-- Claim C1: for every CA request of type Root, validation succeeds only
if the resolved class is at least 2, the resolved key size at least 4096
and the resolved validity at least 1825 days; and whenever the defaulted
request violates one of these root invariants (with the required fields
present), Validate returns an error naming the class, key-size or
validity field. -/
theorem claim_C1_root_invariants (c : CAConfig)
    (hroot : c.Type' = CertificateType.Root) :
    ((caValidate c).1 = none →
      2 ≤ (caValidate c).2.Class ∧ 4096 ≤ (caValidate c).2.KeySize ∧
        1825 ≤ (caValidate c).2.ValidityDays) ∧
    (c.CommonName ≠ "" → c.Organization ≠ "" → c.Country ≠ "" →
      (effectiveClass c < 2 ∨ effectiveKeySize c < 4096 ∨ effectiveValidity c < 1825) →
      namesRootField (caValidate c).1 = true) := by
  by_cases h1 : c.CommonName = ""
  · constructor
    · intro h
      exfalso
      unfold caValidate at h
      rw [if_pos h1] at h
      simp at h
    · intro hc _ _ _
      exact absurd h1 hc
  · by_cases h2 : c.Organization = ""
    · constructor
      · intro h
        exfalso
        unfold caValidate at h
        rw [if_neg h1, if_pos h2] at h
        simp at h
      · intro _ ho _ _
        exact absurd h2 ho
    · by_cases h3 : c.Country = ""
      · constructor
        · intro h
          exfalso
          unfold caValidate at h
          rw [if_neg h1, if_neg h2, if_pos h3] at h
          simp at h
        · intro _ _ hk _
          exact absurd h3 hk
      · have hvalEq : caValidate c =
            caCheckKeySize (if c.Class = 0 then { c with Class := 1 } else c) := by
          unfold caValidate
          rw [if_neg h1, if_neg h2, if_neg h3]
        by_cases h0 : c.Class = 0
        · rw [if_pos h0] at hvalEq
          have hspec := caKeySpec { c with Class := 1 } hroot
          rw [hvalEq]
          refine ⟨hspec.1, fun _ _ _ hviol => hspec.2 ?_⟩
          simp only [effectiveClass, effectiveKeySize, effectiveValidity] at hviol
          rw [if_pos h0] at hviol
          exact hviol
        · rw [if_neg h0] at hvalEq
          have hspec := caKeySpec c hroot
          rw [hvalEq]
          refine ⟨hspec.1, fun _ _ _ hviol => hspec.2 ?_⟩
          simp only [effectiveClass, effectiveKeySize, effectiveValidity] at hviol
          rw [if_neg h0] at hviol
          exact hviol

/-- Witness for C1 at spec scenario 2: a Class 1 root request with a
4096-bit key and 3650-day validity is rejected with an error naming one
of the root fields. -/
theorem claim_C1_root_invariants_witness :
    caRootClass1Sample.Type' = CertificateType.Root ∧
    namesRootField (caValidate caRootClass1Sample).1 = true :=
  ⟨rfl, (claim_C1_root_invariants caRootClass1Sample rfl).2
    (by decide) (by decide) (by decide) (Or.inl (by decide))⟩

/-- Claim C2: the class policy table returns (2048, 1825) for Class 1,
(3072, 1095) for Class 2 and (4096, 730) for Class 3 — minimum key size
strictly increasing and maximum validity strictly decreasing in the
class — and every input outside 1..3 resolves to Class 1's
requirements. -/
theorem claim_C2_policy_table :
    getClassRequirements 1 = (2048, 1825) ∧
    getClassRequirements 2 = (3072, 1095) ∧
    getClassRequirements 3 = (4096, 730) ∧
    (getClassRequirements 1).1 < (getClassRequirements 2).1 ∧
    (getClassRequirements 2).1 < (getClassRequirements 3).1 ∧
    (getClassRequirements 2).2 < (getClassRequirements 1).2 ∧
    (getClassRequirements 3).2 < (getClassRequirements 2).2 ∧
    ∀ c : Int, c ≠ 1 → c ≠ 2 → c ≠ 3 → getClassRequirements c = (2048, 1825) := by
  refine ⟨by decide, by decide, by decide, by decide, by decide, by decide, by decide,
    fun c hc1 hc2 hc3 => ?_⟩
  unfold getClassRequirements
  rw [if_neg hc1, if_neg hc2, if_neg hc3]
  decide

/-- Witness for C2 at the out-of-range class 7. -/
theorem claim_C2_policy_table_witness :
    ((7 : Int) ≠ 1 ∧ (7 : Int) ≠ 2 ∧ (7 : Int) ≠ 3) ∧
    getClassRequirements 7 = (2048, 1825) :=
  ⟨⟨by decide, by decide, by decide⟩,
    claim_C2_policy_table.2.2.2.2.2.2.2 7 (by decide) (by decide) (by decide)⟩

/-- Claim C9: a successfully validated leaf request has dnsNames equal to
the one-element list holding its commonName when the supplied list was
empty, and exactly the supplied list otherwise. -/
theorem claim_C9_dns_default (fm : String → Bool) (c : CertConfig)
    (hs : (certValidate fm c).1 = none) :
    (certValidate fm c).2.DNSNames =
      (if c.DNSNames = [] then [c.CommonName] else c.DNSNames) := by
  by_cases h1 : c.CommonName = ""
  · exfalso
    unfold certValidate at hs
    rw [if_pos h1] at hs
    simp at hs
  · by_cases h2 : c.Organization = ""
    · exfalso
      unfold certValidate at hs
      rw [if_neg h1, if_pos h2] at hs
      simp at hs
    · by_cases h3 : c.Country = ""
      · exfalso
        unfold certValidate at hs
        rw [if_neg h1, if_neg h2, if_pos h3] at hs
        simp at hs
      · have hvalEq : certValidate fm c =
            certCheckKeySize fm (if c.Class = 0 then { c with Class := 1 } else c) := by
          unfold certValidate
          rw [if_neg h1, if_neg h2, if_neg h3]
        by_cases h0 : c.Class = 0
        · rw [if_pos h0] at hvalEq
          rw [hvalEq] at hs ⊢
          exact (certCheckKeySize_snd fm _ hs).2.2.2
        · rw [if_neg h0] at hvalEq
          rw [hvalEq] at hs ⊢
          exact (certCheckKeySize_snd fm _ hs).2.2.2

/-- Witness for C9 at a leaf request with empty dnsNames. -/
theorem claim_C9_dns_default_witness :
    (certValidate noFileMissing certLeafSample).1 = none ∧
    (certValidate noFileMissing certLeafSample).2.DNSNames =
      (if certLeafSample.DNSNames = [] then [certLeafSample.CommonName]
       else certLeafSample.DNSNames) :=
  ⟨by decide, claim_C9_dns_default noFileMissing certLeafSample (by decide)⟩

/-- Claim C10: Validate on CA and leaf requests never writes the identity
fields or the CA certificate/key paths, whether it succeeds or fails:
the only fields that may change are class, key size, validity, dnsNames
and the output directory. -/
theorem claim_C10_validate_frame :
    (∀ c : CAConfig,
      (caValidate c).2.CommonName = c.CommonName ∧
      (caValidate c).2.Organization = c.Organization ∧
      (caValidate c).2.OrganizationalUnit = c.OrganizationalUnit ∧
      (caValidate c).2.Country = c.Country ∧
      (caValidate c).2.Province = c.Province ∧
      (caValidate c).2.Locality = c.Locality ∧
      (caValidate c).2.NoProgress = c.NoProgress ∧
      (caValidate c).2.Type' = c.Type') ∧
    (∀ (fm : String → Bool) (c : CertConfig),
      (certValidate fm c).2.CommonName = c.CommonName ∧
      (certValidate fm c).2.Organization = c.Organization ∧
      (certValidate fm c).2.OrganizationalUnit = c.OrganizationalUnit ∧
      (certValidate fm c).2.Country = c.Country ∧
      (certValidate fm c).2.Province = c.Province ∧
      (certValidate fm c).2.Locality = c.Locality ∧
      (certValidate fm c).2.NoProgress = c.NoProgress ∧
      (certValidate fm c).2.CACert = c.CACert ∧
      (certValidate fm c).2.CAKey = c.CAKey) :=
  ⟨fun c => caValidate_keeps c, fun fm c => certValidate_keeps fm c⟩

/-- Claim C8: for CA and leaf requests (required fields present), an
explicitly supplied key size below the class minimum yields the
key-size bounds error, an explicitly supplied validity above the class
maximum (for non-Root types) yields a bounds error rather than a clamped
value, and on success only absent (non-positive) values were replaced by
the class defaults. -/
theorem claim_C8_bounds_not_clamped :
    (∀ c : CAConfig, c.CommonName ≠ "" → c.Organization ≠ "" → c.Country ≠ "" →
      (0 < c.KeySize → c.KeySize < (getClassRequirements (effectiveClass c)).1 →
        (caValidate c).1 = some (ConfigError.keySizeBelowClassMin
          (getClassRequirements (effectiveClass c)).1 (effectiveClass c))) ∧
      (¬ c.Type' = CertificateType.Root → 0 < c.ValidityDays →
        (getClassRequirements (effectiveClass c)).2 < c.ValidityDays →
        ((caValidate c).1 = some (ConfigError.keySizeBelowClassMin
            (getClassRequirements (effectiveClass c)).1 (effectiveClass c)) ∨
         (caValidate c).1 = some (ConfigError.validityExceedsClassMax
            (getClassRequirements (effectiveClass c)).2 (effectiveClass c)))) ∧
      ((caValidate c).1 = none →
        (0 < c.KeySize → (caValidate c).2.KeySize = c.KeySize) ∧
        (c.KeySize ≤ 0 →
          (caValidate c).2.KeySize = (getClassRequirements (effectiveClass c)).1) ∧
        (0 < c.ValidityDays → (caValidate c).2.ValidityDays = c.ValidityDays) ∧
        (c.ValidityDays ≤ 0 →
          (caValidate c).2.ValidityDays = (getClassRequirements (effectiveClass c)).2))) ∧
    (∀ (fm : String → Bool) (c : CertConfig),
      c.CommonName ≠ "" → c.Organization ≠ "" → c.Country ≠ "" →
      (0 < c.KeySize → c.KeySize < (getClassRequirements (effectiveClassCert c)).1 →
        (certValidate fm c).1 = some (ConfigError.keySizeBelowClassMin
          (getClassRequirements (effectiveClassCert c)).1 (effectiveClassCert c))) ∧
      (0 < c.ValidityDays →
        (getClassRequirements (effectiveClassCert c)).2 < c.ValidityDays →
        ((certValidate fm c).1 = some (ConfigError.keySizeBelowClassMin
            (getClassRequirements (effectiveClassCert c)).1 (effectiveClassCert c)) ∨
         (certValidate fm c).1 = some (ConfigError.validityExceedsClassMax
            (getClassRequirements (effectiveClassCert c)).2 (effectiveClassCert c)))) ∧
      ((certValidate fm c).1 = none →
        (0 < c.KeySize → (certValidate fm c).2.KeySize = c.KeySize) ∧
        (c.KeySize ≤ 0 →
          (certValidate fm c).2.KeySize = (getClassRequirements (effectiveClassCert c)).1) ∧
        (0 < c.ValidityDays → (certValidate fm c).2.ValidityDays = c.ValidityDays) ∧
        (c.ValidityDays ≤ 0 →
          (certValidate fm c).2.ValidityDays =
            (getClassRequirements (effectiveClassCert c)).2))) := by
  constructor
  · intro c h1 h2 h3
    have hvalEq : caValidate c =
        caCheckKeySize (if c.Class = 0 then { c with Class := 1 } else c) := by
      unfold caValidate
      rw [if_neg h1, if_neg h2, if_neg h3]
    by_cases h0 : c.Class = 0
    · rw [if_pos h0] at hvalEq
      have heff : effectiveClass c = 1 := by
        unfold effectiveClass
        rw [if_pos h0]
      rw [hvalEq, heff]
      exact caC8core { c with Class := 1 }
    · rw [if_neg h0] at hvalEq
      have heff : effectiveClass c = c.Class := by
        unfold effectiveClass
        rw [if_neg h0]
      rw [hvalEq, heff]
      exact caC8core c
  · intro fm c h1 h2 h3
    have hvalEq : certValidate fm c =
        certCheckKeySize fm (if c.Class = 0 then { c with Class := 1 } else c) := by
      unfold certValidate
      rw [if_neg h1, if_neg h2, if_neg h3]
    by_cases h0 : c.Class = 0
    · rw [if_pos h0] at hvalEq
      have heff : effectiveClassCert c = 1 := by
        unfold effectiveClassCert
        rw [if_pos h0]
      rw [hvalEq, heff]
      exact certC8core fm { c with Class := 1 }
    · rw [if_neg h0] at hvalEq
      have heff : effectiveClassCert c = c.Class := by
        unfold effectiveClassCert
        rw [if_neg h0]
      rw [hvalEq, heff]
      exact certC8core fm c

/-- Witness for C8: spec scenario 3's shape — an explicit 2048-bit key on
a Class 2 CA request is rejected with the Class 2 minimum, and an
explicit 2000-day validity on a Class 2 leaf request is rejected with
the 1095-day maximum. -/
theorem claim_C8_bounds_not_clamped_witness :
    (caValidate caLowKeySample).1 =
      some (ConfigError.keySizeBelowClassMin 3072 2) ∧
    (certValidate noFileMissing certHighValiditySample).1 =
      some (ConfigError.validityExceedsClassMax 1095 2) := by
  constructor
  · exact (claim_C8_bounds_not_clamped.1 caLowKeySample
      (by decide) (by decide) (by decide)).1 (by decide) (by decide)
  · have h := (claim_C8_bounds_not_clamped.2 noFileMissing certHighValiditySample
      (by decide) (by decide) (by decide)).2.1 (by decide) (by decide)
    rcases h with h | h
    · exact absurd h (by decide)
    · exact h

/-- Claim C4: every Root CA request that validates is issued self-signed:
the certificate's issuer name equals its own subject and its
authorityKeyId equals its subjectKeyId. -/
theorem claim_C4_root_self_signed (config : CAConfig) (serial : Nat)
    (ski aki : List Nat) (now : Int) (cert : Certificate)
    (hroot : config.Type' = CertificateType.Root)
    (h : generateCACert config serial ski aki now = some cert) :
    cert.Issuer = cert.Subject ∧ cert.AuthorityKeyId = cert.SubjectKeyId := by
  unfold generateCACert at h
  rcases hval : caValidate config with ⟨err, c⟩
  rw [hval] at h
  cases err with
  | some e => exact Option.noConfusion h
  | none =>
    have hc := Option.some.inj h
    subst hc
    have hty : c.Type' = CertificateType.Root := by
      have hk := caValidate_keeps config
      rw [hval] at hk
      exact hk.2.2.2.2.2.2.2.trans hroot
    constructor
    · rfl
    · unfold x509CreateCertificate createCATemplate
      rw [if_pos hty]
      simp

/-- Witness for C4 at a concrete validated root request. -/
theorem claim_C4_root_self_signed_witness :
    caRootSample.Type' = CertificateType.Root ∧
    rootIssuedSample.Issuer = rootIssuedSample.Subject ∧
    rootIssuedSample.AuthorityKeyId = rootIssuedSample.SubjectKeyId :=
  ⟨rfl,
    (claim_C4_root_self_signed caRootSample 1 [0] [1] 0 rootIssuedSample rfl
      (by decide)).1,
    (claim_C4_root_self_signed caRootSample 1 [0] [1] 0 rootIssuedSample rfl
      (by decide)).2⟩

/-- Counterexample to claim C3: GenerateCA issues an intermediate CA with
itself as signing parent; the issued certificate's authorityKeyId is the
second independent random draw [1], which equals neither the parent's
subjectKeyId [0] (the certificate is self-issued, so the parent's
subjectKeyId is its own) nor any value the claim permits. -/
theorem claim_C3_counterexample :
    (generateCACert caIntermediateSample 1 [0] [1] 0).map Certificate.AuthorityKeyId =
      some [1] ∧
    (generateCACert caIntermediateSample 1 [0] [1] 0).map Certificate.SubjectKeyId =
      some [0] ∧
    (generateCACert caIntermediateSample 1 [0] [1] 0).map Certificate.Issuer =
      (generateCACert caIntermediateSample 1 [0] [1] 0).map Certificate.Subject := by
  decide

/-- Claim C3 as amended: the leaf flow leaves the template's
authorityKeyId unset, so the signing primitive fills it with the
parent's subjectKeyId whenever the parent's subject differs from the
leaf's and the parent carries one; intermediate CA certificates are
instead issued self-signed by GenerateCA, keeping the independently
drawn authorityKeyId `aki` (and subjectKeyId `ski`), so their
authorityKeyId is not the parent's subjectKeyId whenever the two draws
differ. -/
theorem claim_C3_amended (fm : String → Bool) :
    (∀ (c : CertConfig) (caCert : Certificate) (serial : Nat) (now : Int)
        (cert : Certificate),
      generateLeafCert fm c caCert serial now = some cert →
      caCert.SubjectKeyId ≠ [] → caCert.Subject ≠ cert.Subject →
      cert.AuthorityKeyId = caCert.SubjectKeyId) ∧
    (∀ (c : CAConfig) (serial : Nat) (ski aki : List Nat) (now : Int)
        (cert : Certificate),
      c.Type' = CertificateType.Intermediate →
      generateCACert c serial ski aki now = some cert →
      cert.AuthorityKeyId = aki ∧ cert.SubjectKeyId = ski ∧
        cert.Issuer = cert.Subject) := by
  constructor
  · intro c caCert serial now cert h hski hsub
    unfold generateLeafCert at h
    rcases hval : certValidate fm c with ⟨err, c'⟩
    rw [hval] at h
    cases err with
    | some e => exact Option.noConfusion h
    | none =>
      have hc := Option.some.inj h
      subst hc
      have hsub' : caCert.Subject ≠ (createCertTemplate c' serial now).Subject := hsub
      unfold x509CreateCertificate
      simp only
      rw [if_pos ⟨hsub', hski⟩]
  · intro c serial ski aki now cert hint h
    unfold generateCACert at h
    rcases hval : caValidate c with ⟨err, c'⟩
    rw [hval] at h
    cases err with
    | some e => exact Option.noConfusion h
    | none =>
      have hc := Option.some.inj h
      subst hc
      have hty : c'.Type' = CertificateType.Intermediate := by
        have hk := caValidate_keeps c
        rw [hval] at hk
        exact hk.2.2.2.2.2.2.2.trans hint
      have hT : ∀ t : Certificate,
          (x509CreateCertificate t t).AuthorityKeyId = t.AuthorityKeyId := by
        intro t
        unfold x509CreateCertificate
        rw [if_neg (by simp)]
      refine ⟨?_, ?_, rfl⟩
      · rw [hT]
        unfold createCATemplate
        rw [if_neg (by rw [hty]; decide)]
        split_ifs <;> rfl
      · show (createCATemplate c' serial ski aki now).SubjectKeyId = ski
        unfold createCATemplate
        rw [if_neg (by rw [hty]; decide)]
        split_ifs <;> rfl

/-- Witness for the amended C3: a concrete leaf issued under a parent
with subjectKeyId [5, 6, 7] receives exactly that authorityKeyId, and a
concrete self-signed intermediate keeps its independently drawn
authorityKeyId [1] next to subjectKeyId [0]. -/
theorem claim_C3_amended_witness :
    (parentCertSample.SubjectKeyId ≠ [] ∧
      parentCertSample.Subject ≠ leafIssuedSample.Subject ∧
      leafIssuedSample.AuthorityKeyId = parentCertSample.SubjectKeyId) ∧
    (intermediateIssuedSample.AuthorityKeyId = [1] ∧
      intermediateIssuedSample.SubjectKeyId = [0] ∧
      intermediateIssuedSample.Issuer = intermediateIssuedSample.Subject) :=
  ⟨⟨by decide, by decide,
    (claim_C3_amended noFileMissing).1 certLeafSample parentCertSample 1 0
      leafIssuedSample (by decide) (by decide) (by decide)⟩,
   (claim_C3_amended noFileMissing).2 caIntermediateSample 1 [0] [1] 0
     intermediateIssuedSample (by decide) (by decide)⟩

/-- Claim C5 evaluated at the failing flows: the leaf flow writes the
private key (and the certificate) through writePEM/os.Create with mode
0666 — not the owner-only keyFileMode 0600 the claim requires — and the
sign flow writes signed.crt with 0666 as well; only the CA flow uses
keyFileMode 0600 and certFileMode 0644. -/
theorem claim_C5_file_modes_bug :
    Step.writeFile (joinPath "certs" "cert.key") osCreateMode "PRIVATE KEY" ∈
      (generateCertificateRun noFileMissing certLeafSample envAllOk).1 ∧
    Step.writeFile (joinPath "certs" "cert.crt") osCreateMode "CERTIFICATE" ∈
      (generateCertificateRun noFileMissing certLeafSample envAllOk).1 ∧
    osCreateMode ≠ keyFileMode ∧ osCreateMode ≠ certFileMode ∧
    Step.writeFile (joinPath "certs" "signed.crt") osCreateMode "CERTIFICATE" ∈
      (signCertificateRun noFileMissing signSample envAllOk).1 ∧
    Step.writeFile (joinPath "certs" "ca.key") keyFileMode "PRIVATE KEY" ∈
      (generateCARun caRootSample envAllOk).1 ∧
    Step.writeFile (joinPath "certs" "ca.crt") certFileMode "CERTIFICATE" ∈
      (generateCARun caRootSample envAllOk).1 := by
  decide

/-- Counterexample to claim C6: in the leaf flow a failing
output-directory step still leaves a generated key behind — the key
generation step precedes the only directory handling (MkdirAll), so the
claim's "returns an error without having generated a key" is false. -/
theorem claim_C6_counterexample :
    Step.keyGen ∈ (generateCertificateRun noFileMissing certLeafSample envDirFail).1 ∧
    (generateCertificateRun noFileMissing certLeafSample envDirFail).2 =
      some FlowError.mkdirFailed := by
  decide

/-- Claim C6 as amended: the CA flow checks the output directory before
any key generation — a failing check returns an error with no key
generated — while the leaf flow only creates the directory (MkdirAll)
after the key and certificate exist, so any directory handling there
happens after key generation. -/
theorem claim_C6_amended :
    (∀ (c : CAConfig) (env : Env), env.dirOk = false →
      (generateCARun c env).2 ≠ none ∧
        Step.keyGen ∉ (generateCARun c env).1) ∧
    (∀ (fm : String → Bool) (c : CertConfig) (env : Env),
      Step.mkdirOut ∈ (generateCertificateRun fm c env).1 →
      Step.keyGen ∈ (generateCertificateRun fm c env).1) := by
  constructor
  · intro c env hdir
    unfold generateCARun
    rcases hval : caValidate c with ⟨err, c'⟩
    cases err with
    | some e => simp
    | none => simp [hdir]
  · intro fm c env hmem
    unfold generateCertificateRun at hmem ⊢
    rcases hval : certValidate fm c with ⟨err, c'⟩
    rw [hval] at hmem
    cases err with
    | some e => simp at hmem
    | none => split_ifs at hmem ⊢ <;> simp_all

/-- Witness for the amended C6: a CA run with a failing directory check
errors out without a key-generation step, while a successful leaf run's
trace contains both the directory creation and the earlier key
generation. -/
theorem claim_C6_amended_witness :
    ((generateCARun caRootSample envDirFail).2 ≠ none ∧
      Step.keyGen ∉ (generateCARun caRootSample envDirFail).1) ∧
    Step.keyGen ∈ (generateCertificateRun noFileMissing certLeafSample envAllOk).1 :=
  ⟨claim_C6_amended.1 caRootSample envDirFail rfl,
   claim_C6_amended.2 noFileMissing certLeafSample envAllOk (by decide)⟩

/-- Counterexample to claim C7: a fully successful leaf issuance never
re-parses the produced DER — the flow succeeds with no re-parse step in
its trace, so "the DER bytes are re-parsed before the operation
succeeds" fails for the leaf flow. -/
theorem claim_C7_counterexample :
    (generateCertificateRun noFileMissing certLeafSample envAllOk).2 = none ∧
    Step.reparse ∉ (generateCertificateRun noFileMissing certLeafSample envAllOk).1 := by
  decide

/-- Claim C7 as amended: the CA flow re-parses the DER before success and
surfaces a re-parse failure as the parse error; the leaf flow never
re-parses at all. -/
theorem claim_C7_amended :
    (∀ (c : CAConfig) (env : Env), (generateCARun c env).2 = none →
      Step.reparse ∈ (generateCARun c env).1) ∧
    (∀ (c : CAConfig) (env : Env), env.parseOk = false →
      (generateCARun c env).2 ≠ none ∧
      ((caValidate c).1 = none → env.dirOk = true → env.keyGenOk = true →
        env.serialOk = true → env.createOk = true →
        (generateCARun c env).2 = some FlowError.parseFailed)) ∧
    (∀ (fm : String → Bool) (c : CertConfig) (env : Env),
      Step.reparse ∉ (generateCertificateRun fm c env).1) := by
  refine ⟨?_, ?_, ?_⟩
  · intro c env hs
    unfold generateCARun at hs ⊢
    rcases hval : caValidate c with ⟨err, c'⟩
    rw [hval] at hs
    cases err with
    | some e => simp at hs
    | none =>
      split_ifs at hs ⊢
      simp_all
  · intro c env hparse
    unfold generateCARun
    rcases hval : caValidate c with ⟨err, c'⟩
    cases err with
    | some e =>
      refine ⟨by simp, fun hsucc _ _ _ _ => ?_⟩
      simp at hsucc
    | none =>
      refine ⟨?_, fun _ hd hk hs hc => ?_⟩
      · split_ifs <;> simp_all
      · simp [hd, hk, hs, hc, hparse]
  · intro fm c env
    unfold generateCertificateRun
    rcases hval : certValidate fm c with ⟨err, c'⟩
    cases err with
    | some e => simp
    | none => split_ifs <;> simp

/-- Witness for the amended C7: the successful CA run's trace contains
the re-parse step, and the same run with a failing re-parse returns the
parse error. -/
theorem claim_C7_amended_witness :
    Step.reparse ∈ (generateCARun caRootSample envAllOk).1 ∧
    (generateCARun caRootSample envParseFail).2 = some FlowError.parseFailed :=
  ⟨claim_C7_amended.1 caRootSample envAllOk (by decide),
   (claim_C7_amended.2.1 caRootSample envParseFail rfl).2
     (by decide) rfl rfl rfl rfl⟩

end Certgen
